import Mathlib

/- Shallow embedding of the MultiAgent AI Helpdesk pipeline
(`agents.py`, `utils.py`, `granite_client.py`).

Conventions of the embedding:
- Python strings are Lean `String`s; character-level operations work on `.data`.
- The text-generation gateway call (`get_granite_response(prompt)` in the
  callers of `agents.py`) is abstracted by an `Except String String` argument:
  `Except.error e` models the call raising an exception with message `e`, and
  `Except.ok s` models the call returning the string `s`.
- The file system seen by `retrieve_context` is a function
  `String → Option String` from path to content (`none` = file absent).
- Python `float` arithmetic on confidence scores is modelled by exact
  rational arithmetic over `ℚ`.
-/

set_option maxRecDepth 8192
set_option linter.unusedVariables false

namespace Helpdesk

/-- Python whitespace characters stripped by `str.strip()` (ASCII range). -/
def pyIsSpace (c : Char) : Bool :=
  c = ' ' || c = '\t' || c = '\n' || c = '\r' || c = Char.ofNat 11 || c = Char.ofNat 12

/-- Python `str.strip()` on the character list. -/
def pyStrip (l : List Char) : List Char :=
  ((l.dropWhile pyIsSpace).reverse.dropWhile pyIsSpace).reverse

/-- Python `str.strip()` on a `String`. -/
def pyStripS (s : String) : String :=
  ⟨pyStrip s.data⟩

/-- Python `str.lower()` (ASCII case mapping, which covers all text in the code). -/
def pyLower (l : List Char) : List Char :=
  l.map Char.toLower

/-- Python `str.lower()` on a `String`. -/
def pyLowerS (s : String) : String :=
  ⟨pyLower s.data⟩

/-- Python `str.upper()` (ASCII case mapping). -/
def pyUpper (l : List Char) : List Char :=
  l.map Char.toUpper

/-- Python `str.upper()` on a `String`. -/
def pyUpperS (s : String) : String :=
  ⟨pyUpper s.data⟩

/-- Helper for `pyTitle`: `prevCased` records whether the previous character was
a letter, exactly as Python decides word boundaries in `str.title()`. -/
def pyTitleAux : Bool → List Char → List Char
  | _, [] => []
  | prevCased, c :: cs =>
    if c.isAlpha then
      (if prevCased then c.toLower else c.toUpper) :: pyTitleAux true cs
    else
      c :: pyTitleAux false cs

/-- Python `str.title()`: uppercase every letter that follows a non-letter,
lowercase every other letter.  Note `"IT".title() = "It"` and
`"HR".title() = "Hr"`. -/
def pyTitle (s : String) : String :=
  ⟨pyTitleAux false s.data⟩

/-- Python substring test `needle in haystack` (on character lists). -/
def containsSub (needle : List Char) : List Char → Bool
  | [] => needle.isEmpty
  | c :: rest => List.isPrefixOf needle (c :: rest) || containsSub needle rest

/-- Structural worker for `pyCount`: each step consumes at least one character
and one unit of fuel, so fuel equal to the list length is always enough. -/
def pyCountGo (needle : List Char) : Nat → List Char → Nat
  | _, [] => 0
  | 0, _ :: _ => 0
  | fuel + 1, c :: rest =>
    if List.isPrefixOf needle (c :: rest) then
      1 + pyCountGo needle fuel (rest.drop (needle.length - 1))
    else
      pyCountGo needle fuel rest

/-- Python `haystack.count(needle)` for a nonempty `needle`: number of
non-overlapping occurrences, scanning left to right.  (Python returns
`len+1` for an empty needle; the code only ever counts nonempty tokens.) -/
def pyCount (needle hay : List Char) : Nat :=
  pyCountGo needle hay.length hay

/-- Helper for `pySplit`: accumulates the current token in reverse. -/
def pySplitAux : List Char → List Char → List (List Char)
  | [], acc => if acc.isEmpty then [] else [acc.reverse]
  | c :: cs, acc =>
    if pyIsSpace c then
      if acc.isEmpty then pySplitAux cs [] else acc.reverse :: pySplitAux cs []
    else
      pySplitAux cs (c :: acc)

/-- Python `str.split()` with no arguments: split on whitespace runs,
dropping empty tokens. -/
def pySplit (l : List Char) : List (List Char) :=
  pySplitAux l []

/- ## Classifier agent (`agents.py`, `classify_ticket` / `_fallback_classification`) -/

/-- IT keyword list of `_fallback_classification`. -/
def it_keywords : List String :=
  ["vpn", "password", "login", "computer", "laptop", "software",
   "network", "email", "internet", "wifi", "system", "technical",
   "hardware", "mouse", "keyboard", "monitor"]

/-- HR keyword list of `_fallback_classification`. -/
def hr_keywords : List String :=
  ["leave", "vacation", "sick", "holiday", "hr", "human resources",
   "employment", "manager", "policy", "maternity", "paternity"]

/-- Finance keyword list of `_fallback_classification`. -/
def finance_keywords : List String :=
  ["salary", "payroll", "reimbursement", "expense", "payment",
   "finance", "money", "tax", "bonus", "overtime", "receipt"]

/-- Admin keyword list of `_fallback_classification`. -/
def admin_keywords : List String :=
  ["admin", "administration", "office", "supplies", "calendar",
   "meeting", "room", "booking", "facility"]

/-- `sum(1 for keyword in keywords if keyword in text_lower)`: the number of
keywords of the list that occur as substrings of `text_lower`. -/
def keywordScore (keywords : List String) (text_lower : String) : Nat :=
  keywords.countP (fun keyword => containsSub keyword.data text_lower.data)

/-- Python `max(scores, key=scores.get)` over an association list in insertion
order: the first key attaining the maximum value (a later entry replaces the
current best only when its value is strictly greater).  Python raises on an
empty dict; the code always passes four entries. -/
def pyMaxByValue : List (String × Nat) → String × Nat
  | [] => ("", 0)
  | p :: t => t.foldl (fun best q => if q.2 > best.2 then q else best) p

/-- `_fallback_classification(ticket_text)` from `agents.py`.  The final test
`scores[max_category] == 0` is the value of the maximising pair, since the four
keys are distinct. -/
def fallback_classification (ticket_text : String) : String :=
  let text_lower := pyLowerS ticket_text
  let it_score := keywordScore it_keywords text_lower
  let hr_score := keywordScore hr_keywords text_lower
  let finance_score := keywordScore finance_keywords text_lower
  let admin_score := keywordScore admin_keywords text_lower
  let scores : List (String × Nat) :=
    [("IT", it_score), ("HR", hr_score), ("Finance", finance_score), ("Admin", admin_score)]
  let max_pair := pyMaxByValue scores
  if max_pair.2 = 0 then "Other" else max_pair.1

/-- `classify_ticket(ticket_text)` from `agents.py`, with the gateway call
outcome `gw` made explicit (`Except.error e` = the call raised). -/
def classify_ticket (gw : Except String String) (ticket_text : String) : String :=
  match gw with
  | Except.ok response =>
    let category := pyUpperS (pyStripS response)
    let valid_categories := ["IT", "HR", "FINANCE", "ADMIN", "OTHER"]
    if valid_categories.contains category then
      pyTitle category
    else
      fallback_classification ticket_text
  | Except.error _ => fallback_classification ticket_text

/- ## Retriever agent (`agents.py`, `retrieve_context`) -/

/-- The `category_files` mapping of `retrieve_context`. -/
def category_files : List (String × String) :=
  [("IT", "vpn_policy.txt"), ("HR", "leave_policy.txt"),
   ("Finance", "reimbursement_policy.txt"), ("Admin", "hardware_issuance.txt")]

/-- `retrieve_context(category)` from `agents.py`, with the file system made
explicit as `fs : path → Option content` (`none` models `os.path.exists`
returning false).  The Python control flow is kept verbatim: the
`category in category_files` test comes first, so the `elif` arms for
`"Finance"` and `"Admin"` below are unreachable, since both strings are keys
of `category_files`. -/
def retrieve_context (fs : String → Option String) (category : String) : String :=
  match category_files.lookup category with
  | some fname =>
    match fs ("knowledge_base/" ++ fname) with
    | some content => ⟨pyStrip content.data⟩
    | none => "No policy found."
  | none =>
    if category = "Finance" then
      let contexts := ["reimbursement_policy.txt", "salary_policy.txt"].filterMap
        (fun fn => (fs ("knowledge_base/" ++ fn)).map (fun c => (⟨pyStrip c.data⟩ : String)))
      if contexts.isEmpty then "No policy found." else String.intercalate "\n\n" contexts
    else if category = "Admin" then
      let contexts := ["hardware_issuance.txt", "holiday_calendar.txt"].filterMap
        (fun fn => (fs ("knowledge_base/" ++ fn)).map (fun c => (⟨pyStrip c.data⟩ : String)))
      if contexts.isEmpty then "No policy found." else String.intercalate "\n\n" contexts
    else
      "No policy found."

/- ## Responder agent (`agents.py`, `generate_reply`) -/

/-- The fixed fallback sentence returned by `generate_reply` when the gateway
call raises. -/
def reply_fallback : String :=
  "Thank you for your inquiry. I\x27m currently experiencing technical difficulties. Please contact our support team directly for immediate assistance."

/-- `generate_reply(ticket_text, context)` from `agents.py`, with the gateway
call outcome made explicit.  On success the gateway response is returned
unchanged; on an exception the fixed fallback sentence is returned. -/
def generate_reply (gw : Except String String) (ticket_text context : String) : String :=
  match gw with
  | Except.ok response => response
  | Except.error _ => reply_fallback

/- ## Confidence agent (`agents.py`, `rate_confidence` / `_calculate_fallback_confidence`) -/

/-- The `specific_terms` list of `_calculate_fallback_confidence`. -/
def specific_terms : List String :=
  ["contact", "portal", "policy", "procedure", "email", "phone"]

/-- The `error_terms` list of `_calculate_fallback_confidence`. -/
def error_terms : List String :=
  ["error", "unable", "technical issue", "try again"]

/-- `_calculate_fallback_confidence(ticket_text, response)` from `agents.py`,
over exact rationals. -/
def calculate_fallback_confidence (ticket_text response : String) : ℚ :=
  let confidence : ℚ := 0.5
  let confidence := if response.length > 100 then confidence + 0.1 else confidence
  let confidence := specific_terms.foldl
    (fun c term => if containsSub (pyLower term.data) (pyLower response.data) then c + 0.05 else c)
    confidence
  let confidence := error_terms.foldl
    (fun c term => if containsSub (pyLower term.data) (pyLower response.data) then c - 0.2 else c)
    confidence
  max 0 (min 1 confidence)

/-- The first regex alternative of `re.findall(r'0\.\d+|1\.0|0|1', s)` that
matches at the head of `l`, tried in the pattern order
`0\.\d+`, `1.0`, `0`, `1` (with `\d+` greedy), or `none`. -/
def matchNumberAt (l : List Char) : Option (List Char) :=
  match l with
  | '0' :: '.' :: rest =>
    let ds := rest.takeWhile Char.isDigit
    if ds.isEmpty then some ['0'] else some ('0' :: '.' :: ds)
  | '0' :: _ => some ['0']
  | '1' :: '.' :: '0' :: _ => some ['1', '.', '0']
  | '1' :: _ => some ['1']
  | _ => none

/-- Structural worker for `findNumbers`: each step consumes at least one
character and one unit of fuel, so fuel equal to the list length is always
enough (every match produced by `matchNumberAt` is nonempty). -/
def findNumbersGo : Nat → List Char → List (List Char)
  | _, [] => []
  | 0, _ :: _ => []
  | fuel + 1, c :: rest =>
    match matchNumberAt (c :: rest) with
    | some m => m :: findNumbersGo fuel (rest.drop (m.length - 1))
    | none => findNumbersGo fuel rest

/-- `re.findall(r'0\.\d+|1\.0|0|1', s)`: scan left to right, at each position
emit the first matching alternative and resume after it, else advance one
character. -/
def findNumbers (l : List Char) : List (List Char) :=
  findNumbersGo l.length l

/-- Python `float(...)` on a token produced by `findNumbers` (shapes
`0.<digits>`, `1.0`, `0`, `1`), as an exact rational. -/
def pyFloatOfToken (tok : List Char) : ℚ :=
  match tok with
  | '0' :: '.' :: ds =>
    ((ds.foldl (fun n c => 10 * n + (c.toNat - 48)) 0 : Nat) : ℚ) / (10 : ℚ) ^ ds.length
  | ['1', '.', '0'] => 1
  | ['1'] => 1
  | _ => 0

/-- `rate_confidence(ticket_text, response)` from `agents.py`, with the
gateway call outcome made explicit. -/
def rate_confidence (gw : Except String String) (ticket_text response : String) : ℚ :=
  match gw with
  | Except.ok confidence_response =>
    let numbers := findNumbers confidence_response.data
    match numbers with
    | num :: _ =>
      let confidence := pyFloatOfToken num
      max 0 (min 1 confidence)
    | [] => calculate_fallback_confidence ticket_text response
  | Except.error _ => calculate_fallback_confidence ticket_text response

/- ## Escalation policy (`agents.py`, `should_escalate`) -/

/-- The fixed escalation message of `should_escalate`. -/
def escalation_message : String :=
  "We are forwarding this to a human support agent for further review."

/-- `should_escalate(confidence_score)` from `agents.py`. -/
def should_escalate (confidence_score : ℚ) : Bool × String :=
  if confidence_score < 0.6 then (true, escalation_message) else (false, "")

/- ## Gateway adapter (`granite_client.py`, `get_granite_response`) -/

/-- The apology text `get_granite_response` returns on any internal failure,
before the raw exception message is appended. -/
def granite_apology : String :=
  "I apologize, but I\x27m currently unable to process your request due to a technical issue. Please try again later or contact IT support. Error: "

/-- `get_granite_response(prompt)` from `granite_client.py`, with the backend
call (`model.generate_text`) outcome made explicit: `Except.error e` models an
exception with message `str(e)`.  Every exception is caught and turned into an
apology string embedding the message, so the function always returns a
string. -/
def get_granite_response (backend : Except String String) : String :=
  match backend with
  | Except.ok response =>
    let cleaned_response := pyStripS response
    if cleaned_response.startsWith "\"" && cleaned_response.endsWith "\"" then
      ⟨(cleaned_response.data.drop 1).dropLast⟩
    else
      cleaned_response
  | Except.error e => granite_apology ++ e

/- ## Input validation (`utils.py`, `validate_ticket_input`) -/

/-- `validate_ticket_input(ticket_text)` from `utils.py`.  Python indexes
`cleaned_text.split()[0]`; the `headD []` default can only be hit when the
split is empty, which the earlier emptiness check rules out. -/
def validate_ticket_input (ticket_text : String) : Bool × String :=
  if ticket_text = "" || pyStripS ticket_text = "" then
    (false, "Please enter a ticket description.")
  else
    let cleaned_text := pyStripS ticket_text
    if cleaned_text.length < 10 then
      (false, "Ticket description must be at least 10 characters long.")
    else if cleaned_text.length > 2000 then
      (false, "Ticket description must be less than 2000 characters.")
    else if pyCount (pyLower ((pySplit cleaned_text.data).headD []))
        (pyLower cleaned_text.data) > 5 then
      (false, "Ticket appears to contain repetitive content.")
    else
      (true, "")

/- ## Concrete inputs used by the witnesses -/

/-- A concrete reply of length 150 containing the specificity terms "contact"
and "policy" and no other specificity or failure terms. -/
def example_reply : String := "contact policy " ++ ⟨List.replicate 135 'z'⟩

/- ## Concrete file systems used to exercise `retrieve_context` -/

/-- A file system in which both Finance policy files exist, with
distinguishable contents. -/
def fs_finance_both : String → Option String := fun p =>
  if p = "knowledge_base/reimbursement_policy.txt" then some "REIMBURSEMENT POLICY TEXT"
  else if p = "knowledge_base/salary_policy.txt" then some "SALARY POLICY TEXT"
  else none

/-- A file system in which both Admin files exist, with distinguishable
contents. -/
def fs_admin_both : String → Option String := fun p =>
  if p = "knowledge_base/hardware_issuance.txt" then some "HARDWARE ISSUANCE TEXT"
  else if p = "knowledge_base/holiday_calendar.txt" then some "HOLIDAY CALENDAR TEXT"
  else none

/- ## Helper lemmas -/

theorem clamp_eq_of {x : ℚ} (h0 : 0 ≤ x) (h1 : x ≤ 1) : max 0 (min 1 x) = x := by
  rw [min_eq_right h1, max_eq_right h0]

theorem clamp_bounds (x : ℚ) : 0 ≤ max 0 (min 1 x) ∧ max 0 (min 1 x) ≤ 1 :=
  ⟨le_max_left 0 _, max_le (by norm_num) (min_le_left 1 x)⟩

/-- Characterisation of the `max(scores, key=scores.get)` + zero-test step of
`_fallback_classification` over arbitrary scores: the first-declared key wins
ties, `"Other"` when every score is zero. -/
theorem maxByValue_spec (i h f a : Nat) :
    (if (pyMaxByValue [("IT", i), ("HR", h), ("Finance", f), ("Admin", a)]).2 = 0 then "Other"
     else (pyMaxByValue [("IT", i), ("HR", h), ("Finance", f), ("Admin", a)]).1) =
      (if i = 0 ∧ h = 0 ∧ f = 0 ∧ a = 0 then "Other"
       else if h ≤ i ∧ f ≤ i ∧ a ≤ i then "IT"
       else if i < h ∧ f ≤ h ∧ a ≤ h then "HR"
       else if i < f ∧ h < f ∧ a ≤ f then "Finance"
       else "Admin") := by
  simp only [pyMaxByValue, List.foldl]
  split_ifs <;> first | rfl | omega

/- ## Claim theorems -/

/-- C1: when the gateway returns one of the five labels, `classify_ticket`
re-capitalises it with Python `str.title()`, which maps `"IT"` to `"It"` and
`"HR"` to `"Hr"` — strings outside the claimed five-value set.  This
contradicts the function docstring, which promises `"IT", "HR", "Finance",
"Admin", or "Other"`. -/
theorem classify_ticket_title_bug :
    classify_ticket (Except.ok "IT") "My VPN is broken" = "It"
    ∧ classify_ticket (Except.ok "hr") "Leave question" = "Hr"
    ∧ (["IT", "HR", "Finance", "Admin", "Other"].contains "It") = false
    ∧ (["IT", "HR", "Finance", "Admin", "Other"].contains "Hr") = false := by
  refine ⟨by decide, by decide, by decide, by decide⟩

/-- C2: with both Finance policy files present, `retrieve_context "Finance"`
returns only the reimbursement file content, not the two contents joined by a
blank line: the `category in category_files` branch catches `"Finance"` (and
`"Admin"`) first, so the two-file `elif` arms are dead code.  Analogously for
`"Admin"`. -/
theorem retrieve_context_dead_branch :
    retrieve_context fs_finance_both "Finance" = "REIMBURSEMENT POLICY TEXT"
    ∧ retrieve_context fs_finance_both "Finance"
        ≠ "REIMBURSEMENT POLICY TEXT\n\nSALARY POLICY TEXT"
    ∧ retrieve_context fs_admin_both "Admin" = "HARDWARE ISSUANCE TEXT"
    ∧ retrieve_context fs_admin_both "Admin"
        ≠ "HARDWARE ISSUANCE TEXT\n\nHOLIDAY CALENDAR TEXT" := by
  refine ⟨by decide, by decide, by decide, by decide⟩

/-- C3 (counterexample): the fixed fallback sentence returned by
`generate_reply` on gateway failure contains none of the confidence
heuristic's failure terms — it says "technical difficulties", not "technical
issue" — so the claim that the heuristic's error-term detection fires on the
fallback reply is false. -/
theorem generate_reply_fallback_error_terms_cex :
    generate_reply (Except.error "boom") "a ticket" "a context" = reply_fallback
    ∧ (error_terms.any (fun term =>
        containsSub (pyLower term.data) (pyLower reply_fallback.data))) = false := by
  refine ⟨rfl, by decide⟩

/-- C3 (amended): when the gateway call raises, `generate_reply` returns one
fixed apology-and-redirect sentence, the same string on every failure, for
every ticket and context; that fixed sentence contains none of the confidence
heuristic's failure terms, so the heuristic's error-term detection does not
fire on the fallback reply. -/
theorem generate_reply_fallback_fixed (e ticket context : String) :
    generate_reply (Except.error e) ticket context = reply_fallback
    ∧ (error_terms.any (fun term =>
        containsSub (pyLower term.data) (pyLower reply_fallback.data))) = false := by
  refine ⟨rfl, by decide⟩

/-- C4: the keyword fallback classifier returns the category whose keyword
score (number of keywords of its list occurring case-insensitively in the
text) is strictly highest, ties broken in the order IT, HR, Finance, Admin;
if all four scores are zero it returns `"Other"`.  In particular a text
containing exactly one IT keyword and one HR keyword classifies as `"IT"`. -/
theorem fallback_classification_spec (t : String) :
    (fallback_classification t =
      (if keywordScore it_keywords (pyLowerS t) = 0 ∧ keywordScore hr_keywords (pyLowerS t) = 0
          ∧ keywordScore finance_keywords (pyLowerS t) = 0
          ∧ keywordScore admin_keywords (pyLowerS t) = 0 then "Other"
       else if keywordScore hr_keywords (pyLowerS t) ≤ keywordScore it_keywords (pyLowerS t)
          ∧ keywordScore finance_keywords (pyLowerS t) ≤ keywordScore it_keywords (pyLowerS t)
          ∧ keywordScore admin_keywords (pyLowerS t) ≤ keywordScore it_keywords (pyLowerS t) then "IT"
       else if keywordScore it_keywords (pyLowerS t) < keywordScore hr_keywords (pyLowerS t)
          ∧ keywordScore finance_keywords (pyLowerS t) ≤ keywordScore hr_keywords (pyLowerS t)
          ∧ keywordScore admin_keywords (pyLowerS t) ≤ keywordScore hr_keywords (pyLowerS t) then "HR"
       else if keywordScore it_keywords (pyLowerS t) < keywordScore finance_keywords (pyLowerS t)
          ∧ keywordScore hr_keywords (pyLowerS t) < keywordScore finance_keywords (pyLowerS t)
          ∧ keywordScore admin_keywords (pyLowerS t) ≤ keywordScore finance_keywords (pyLowerS t) then "Finance"
       else "Admin"))
    ∧ fallback_classification "vpn leave" = "IT" := by
  refine ⟨?_, by decide⟩
  exact maxByValue_spec (keywordScore it_keywords (pyLowerS t))
    (keywordScore hr_keywords (pyLowerS t)) (keywordScore finance_keywords (pyLowerS t))
    (keywordScore admin_keywords (pyLowerS t))

/-- C8: when the gateway call raises, `classify_ticket` returns exactly the
result of the keyword fallback classifier on the ticket text. -/
theorem classify_ticket_gateway_failure (e ticket_text : String) :
    classify_ticket (Except.error e) ticket_text = fallback_classification ticket_text := rfl

/-- C5: `should_escalate s` returns `(true, m)` with the fixed non-empty
message `m` exactly when `s < 0.6`, and `(false, "")` when `0.6 ≤ s`; the
boundary value `0.6` itself does not escalate. -/
theorem should_escalate_spec (s : ℚ) :
    (s < 0.6 → should_escalate s = (true, escalation_message) ∧ escalation_message ≠ "")
    ∧ (0.6 ≤ s → should_escalate s = (false, ""))
    ∧ should_escalate 0.6 = (false, "") := by
  refine ⟨fun hlt => ⟨?_, by decide⟩, fun hge => ?_, ?_⟩
  · simp [should_escalate, hlt]
  · simp [should_escalate, not_lt.mpr hge]
  · norm_num [should_escalate]

/-- C5 witness: `0.59` escalates with the fixed message; `0.6` does not. -/
theorem should_escalate_spec_witness :
    should_escalate 0.59 = (true, escalation_message) ∧ should_escalate 0.6 = (false, "") :=
  ⟨((should_escalate_spec 0.59).1 (by norm_num)).1, (should_escalate_spec 0.6).2.2⟩

/-- C6: for a reply longer than 100 characters that contains the specificity
terms "contact" and "policy", none of the other specificity terms, and none of
the failure terms, the heuristic fallback confidence is exactly
`0.5 + 0.1 + 0.05 + 0.05 = 0.70`. -/
theorem fallback_confidence_example (ticket reply : String)
    (hlen : 100 < reply.length)
    (hcontact : containsSub (pyLower "contact".data) (pyLower reply.data) = true)
    (hpolicy : containsSub (pyLower "policy".data) (pyLower reply.data) = true)
    (hportal : containsSub (pyLower "portal".data) (pyLower reply.data) = false)
    (hprocedure : containsSub (pyLower "procedure".data) (pyLower reply.data) = false)
    (hemail : containsSub (pyLower "email".data) (pyLower reply.data) = false)
    (hphone : containsSub (pyLower "phone".data) (pyLower reply.data) = false)
    (herror : containsSub (pyLower "error".data) (pyLower reply.data) = false)
    (hunable : containsSub (pyLower "unable".data) (pyLower reply.data) = false)
    (htechnical : containsSub (pyLower "technical issue".data) (pyLower reply.data) = false)
    (htry : containsSub (pyLower "try again".data) (pyLower reply.data) = false) :
    calculate_fallback_confidence ticket reply = 0.7 := by
  simp only [calculate_fallback_confidence, specific_terms, error_terms, List.foldl,
    hlen, hcontact, hpolicy, hportal, hprocedure, hemail, hphone, herror, hunable,
    htechnical, htry, if_true, if_false, if_pos, if_neg, Bool.false_eq_true, ite_true,
    ite_false]
  rw [clamp_eq_of (by norm_num) (by norm_num)]
  norm_num

theorem example_reply_len : 100 < example_reply.length := by decide

theorem example_reply_contact :
    containsSub (pyLower "contact".data) (pyLower example_reply.data) = true := by decide

theorem example_reply_policy :
    containsSub (pyLower "policy".data) (pyLower example_reply.data) = true := by decide

theorem example_reply_portal :
    containsSub (pyLower "portal".data) (pyLower example_reply.data) = false := by decide

theorem example_reply_procedure :
    containsSub (pyLower "procedure".data) (pyLower example_reply.data) = false := by decide

theorem example_reply_email :
    containsSub (pyLower "email".data) (pyLower example_reply.data) = false := by decide

theorem example_reply_phone :
    containsSub (pyLower "phone".data) (pyLower example_reply.data) = false := by decide

theorem example_reply_error :
    containsSub (pyLower "error".data) (pyLower example_reply.data) = false := by decide

theorem example_reply_unable :
    containsSub (pyLower "unable".data) (pyLower example_reply.data) = false := by decide

theorem example_reply_technical :
    containsSub (pyLower "technical issue".data) (pyLower example_reply.data) = false := by decide

theorem example_reply_try :
    containsSub (pyLower "try again".data) (pyLower example_reply.data) = false := by decide

/-- C6 witness: a concrete reply of length 150 containing "contact" and
"policy" and no failure terms scores exactly `0.70`. -/
theorem fallback_confidence_example_witness :
    calculate_fallback_confidence "a ticket" example_reply = 0.7 :=
  fallback_confidence_example "a ticket" example_reply example_reply_len
    example_reply_contact example_reply_policy example_reply_portal example_reply_procedure
    example_reply_email example_reply_phone example_reply_error example_reply_unable
    example_reply_technical example_reply_try

/-- C7: `rate_confidence` returns a value in the closed interval `[0, 1]` for
every gateway outcome, ticket and reply text, on both the parsed-gateway path
and the heuristic-fallback path (both end in a clamp to `[0, 1]`). -/
theorem rate_confidence_bounds (gw : Except String String) (ticket reply : String) :
    0 ≤ rate_confidence gw ticket reply ∧ rate_confidence gw ticket reply ≤ 1 := by
  have hfb : 0 ≤ calculate_fallback_confidence ticket reply ∧
      calculate_fallback_confidence ticket reply ≤ 1 := by
    simp only [calculate_fallback_confidence]
    exact clamp_bounds _
  cases gw with
  | error e => simpa only [rate_confidence] using hfb
  | ok r =>
    simp only [rate_confidence]
    cases hn : findNumbers r.data with
    | nil => simpa only [hn] using hfb
    | cons num rest => simpa only [hn] using clamp_bounds (pyFloatOfToken num)

/-- C9: `validate_ticket_input` accepts exactly when the trimmed text is
non-empty, its length is in `[10, 2000]`, and the lowered first
whitespace-delimited token occurs at most 5 times in the lowered trimmed
text; every rejection carries a non-empty user-facing message.  A 5-character
ticket is rejected, a 10-character one accepted, a 2001-character one
rejected. -/
theorem validate_ticket_input_spec (t : String) :
    ((validate_ticket_input t).1 = true ↔
      pyStripS t ≠ "" ∧ 10 ≤ (pyStripS t).length ∧ (pyStripS t).length ≤ 2000 ∧
        pyCount (pyLower ((pySplit (pyStripS t).data).headD []))
          (pyLower (pyStripS t).data) ≤ 5)
    ∧ ((validate_ticket_input t).1 = false → (validate_ticket_input t).2 ≠ "")
    ∧ (validate_ticket_input "abcde").1 = false
    ∧ (validate_ticket_input "abcdefghij").1 = true
    ∧ (validate_ticket_input ⟨List.replicate 2001 'a'⟩).1 = false := by
  have hiff : ∀ s : String, ((validate_ticket_input s).1 = true ↔
      pyStripS s ≠ "" ∧ 10 ≤ (pyStripS s).length ∧ (pyStripS s).length ≤ 2000 ∧
        pyCount (pyLower ((pySplit (pyStripS s).data).headD []))
          (pyLower (pyStripS s).data) ≤ 5) := by
    intro s
    simp only [validate_ticket_input]
    split_ifs with h1 h2 h3 h4
    · simp only [Bool.or_eq_true, decide_eq_true_eq] at h1
      rw [false_iff]
      rintro ⟨hne, -, -, -⟩
      rcases h1 with rfl | hs
      · exact hne rfl
      · exact hne hs
    · rw [false_iff]
      rintro ⟨-, hlen, -, -⟩
      omega
    · rw [false_iff]
      rintro ⟨-, -, hlen, -⟩
      omega
    · rw [false_iff]
      rintro ⟨-, -, -, hcnt⟩
      omega
    · simp only [Bool.or_eq_true, decide_eq_true_eq, not_or] at h1
      exact iff_of_true rfl ⟨h1.2, by omega, by omega, by omega⟩
  have hdrop : ∀ n : Nat, (List.replicate n 'a').dropWhile pyIsSpace = List.replicate n 'a' := by
    intro n
    cases n with
    | zero => rfl
    | succ m => simp +decide [List.replicate_succ, List.dropWhile_cons]
  have hlen2001 : (pyStripS (⟨List.replicate 2001 'a'⟩ : String)).length = 2001 := by
    show (pyStrip (List.replicate 2001 'a')).length = 2001
    simp only [pyStrip, hdrop, List.reverse_replicate, List.length_replicate]
  refine ⟨hiff t, ?_, by decide, by decide, ?_⟩
  · simp only [validate_ticket_input]
    split_ifs <;> simp
  · rcases hb : (validate_ticket_input (⟨List.replicate 2001 'a'⟩ : String)).1 with _ | _
    · rfl
    · exfalso
      obtain ⟨-, -, hle, -⟩ := (hiff _).mp hb
      rw [hlen2001] at hle
      omega

/-- C9 witness: the 5-character ticket `"abcde"` is rejected and the rejection
carries a non-empty message. -/
theorem validate_ticket_input_spec_witness :
    (validate_ticket_input "abcde").1 = false ∧ (validate_ticket_input "abcde").2 ≠ "" :=
  ⟨(validate_ticket_input_spec "abcde").2.2.1,
    (validate_ticket_input_spec "abcde").2.1 (validate_ticket_input_spec "abcde").2.2.1⟩

/-- C10: the gateway adapter `get_granite_response` catches every internal
failure and returns a string: on failure it returns the apology text with the
raw exception message appended, beginning "I apologize, but I\x27m currently
unable to process your request".  Being total, it never triggers the
exception-handling branches of its callers; through the adapter a gateway
failure surfaces as ordinary (unparseable) text, e.g. `classify_ticket` then
takes its invalid-label keyword-fallback path. -/
theorem get_granite_response_never_raises (e : String) :
    get_granite_response (Except.error e) = granite_apology ++ e
    ∧ (∃ rest : String, get_granite_response (Except.error e)
        = "I apologize, but I\x27m currently unable to process your request" ++ rest)
    ∧ (∀ t : String,
        classify_ticket (Except.ok (get_granite_response (Except.error "boom"))) t
          = fallback_classification t) := by
  refine ⟨rfl,
    ⟨" due to a technical issue. Please try again later or contact IT support. Error: " ++ e,
      ?_⟩, ?_⟩
  · show granite_apology ++ e = _
    rw [← String.append_assoc]
    rfl
  · intro t
    simp +decide [classify_ticket]

end Helpdesk

